import Mathlib

/-!
Shallow embedding of `src/app.py` (olmOCR Gradio front end).

The program consists of three parts that the claims concern:
  * `modify_html_for_better_display` — a pure string transformation
    (a fixed sequence of global substring replacements, one regex
    substitution, and the injection of a zoom-control snippet);
  * `process_pdf` — the single-file handler: stages a PDF into a job
    directory, runs the external extraction tool, reads the first
    `output_*.jsonl` result, builds text / HTML preview / metadata /
    download outputs, with textual error returns on each failure path;
  * `process_multiple_pdfs` — the batch handler: iterates the inputs,
    delegates each to `process_pdf`, and writes each extracted text into
    a zip archive.

External interactions (subprocesses, filesystem reads) are modelled by an
explicit `Env` record giving the outcome of each interaction, and side
effects are returned as an explicit `Effect` trace.  Machine-level OS
failures of `os.makedirs` / `shutil.copy` (which the code does not guard)
are not modelled: those calls are treated as succeeding, as they do under
the UI framework that owns the input temp files.
-/

namespace OlmApp

/-- A parsed JSON value, as returned by Python's `json.loads`.  Objects are
association lists with distinct keys (the parser deduplicates, later keys
winning, before this program ever sees the dict); numbers in the claims are
integers. -/
inductive JVal where
  | null
  | bool (b : Bool)
  | num (n : Int)
  | str (s : String)
  | arr (xs : List JVal)
  | obj (fields : List (String × JVal))

/-- Python `dict.get k`: look up a key in an object's field list (keys are
distinct, so the first match is the only match). -/
def jget (fields : List (String × JVal)) (k : String) : Option JVal :=
  match fields with
  | [] => none
  | (k', v) :: rest => if k' = k then some v else jget rest k

/-- Outcome of `f.read().strip()` followed by `json.loads` on the first
output file: blank after stripping, a JSON parse error (with the Python
exception text), or a parsed value. -/
inductive FileContent where
  | blank
  | invalid (msg : String)
  | jval (j : JVal)

/-- Outcome of the blocking `subprocess.run` of the extraction tool:
whether it exited zero, and its captured stdout and stderr. -/
structure RunResult where
  exitZero : Bool
  stdout : String
  stderr : String
deriving DecidableEq

/-- Outcome of opening and reading the first HTML preview file. -/
inductive ReadResult where
  | ok (content : String)
  | err (msg : String)
deriving DecidableEq

/-- The external world a single `process_pdf` call observes: the clock
value used for the job directory name, the extraction subprocess outcome,
whether `results/` exists, the `output_*.jsonl` file names found by the
glob (in listing order), the content of the first one, the preview
subprocess outcome, the `dolma_previews/*.html` glob result, and the read
outcome for the first HTML file. -/
structure Env where
  timestamp : Nat
  run : RunResult
  resultsDirExists : Bool
  outputFiles : List String
  outputContent : FileContent
  previewOk : Bool
  previewErrMsg : String
  htmlFiles : List String
  htmlRead : ReadResult

/-- A side effect performed by a handler, in program order. -/
inductive Effect where
  | mkdir (path : String)
  | copy (src dst : String)
  | runProc (cmd : List String)
  | writeFile (path : String) (content : String)
  | createZip (path : String)
  | zipWrite (name : String) (content : String)
deriving DecidableEq

/-- The five-slot return of `process_pdf`:
`(log, extracted text, html, metadata dataframe rows, download path)`.
Python's `None` is `none`; the dataframe is its `(key, value)` row list. -/
structure PdfResult where
  log : String
  text : String
  html : Option String
  meta : Option (List (String × JVal))
  download : Option String

/-- An error return of `process_pdf`: message in the log slot, `""` in the
text slot, `None` in the remaining three. -/
def errResult (msg : String) : PdfResult :=
  { log := msg, text := "", html := none, meta := none, download := none }

/-- `os.path.basename`: the characters after the last `/` (POSIX).  The
accumulator holds the current segment reversed. -/
def afterLastSlash (cs : List Char) (acc : List Char) : List Char :=
  match cs with
  | [] => acc.reverse
  | c :: rest => if c = '/' then afterLastSlash rest [] else afterLastSlash rest (c :: acc)

/-- Root part of `os.path.splitext` applied to a base name with no
directory separators: split at the last dot, except that leading dots are
part of the root. -/
def splitextStem (b : List Char) : List Char :=
  let lead := b.takeWhile (fun c => c = '.')
  let rest := b.drop lead.length
  let rrev := rest.reverse
  if rrev.contains '.' then
    lead ++ ((rrev.dropWhile (fun c => c ≠ '.')).drop 1).reverse
  else
    lead ++ rest

/-- `os.path.splitext(os.path.basename(p))[0]` as used on the input path. -/
def stemOf (p : String) : String :=
  String.mk (splitextStem (afterLastSlash p.data []))

/-- One step list of Python `str.replace`: scan left to right, replace each
non-overlapping occurrence of `p :: ps` by `repl`, continue after the
match.  `fuel` bounds the recursion; it starts at the list's length, and
every step consumes at least one character, so the `0` fallback is never
reached. -/
def replaceFuel (p : Char) (ps : List Char) (repl : List Char) :
    Nat → List Char → List Char
  | _, [] => []
  | 0, cs => cs
  | fuel + 1, c :: cs =>
    if (p :: ps).isPrefixOf (c :: cs) then
      repl ++ replaceFuel p ps repl fuel (cs.drop ps.length)
    else
      c :: replaceFuel p ps repl fuel cs

/-- Python `s.replace(pat, repl)` for the non-empty patterns the source
uses (the source never calls `replace` with an empty pattern). -/
def replaceAll (s pat repl : String) : String :=
  match pat.data with
  | [] => s
  | p :: ps => String.mk (replaceFuel p ps repl.data s.data.length s.data)

/-- The literal `style="` that follows group 1 in the image regex. -/
def styleLit : List Char := ['s', 't', 'y', 'l', 'e', '=', '"']

/-- One attempted split for the greedy `([^>]*)` group of the regex
`<img([^>]*)style="([^"]*)"`: keep `k` characters of `run` as group 1,
require the literal `style="` next, then group 2 up to a closing quote. -/
def imgTryAt (run rest : List Char) (k : Nat) : Option (List Char × List Char × List Char) :=
  let cand := run.drop k ++ rest
  if styleLit.isPrefixOf cand then
    let tail := cand.drop 7
    match tail.dropWhile (fun c => c ≠ '"') with
    | _ :: afterQ => some (run.take k, tail.takeWhile (fun c => c ≠ '"'), afterQ)
    | [] => none
  else none

/-- Greedy backtracking over the split point, longest group 1 first. -/
def imgBacktrack (run rest : List Char) : Nat → Option (List Char × List Char × List Char)
  | 0 => imgTryAt run rest 0
  | k + 1 =>
    match imgTryAt run rest (k + 1) with
    | some r => some r
    | none => imgBacktrack run rest k

/-- Try to match the regex `<img([^>]*)style="([^"]*)"` at the head of the
list; on success return (group 1, group 2, remainder after the match). -/
def imgMatch (cs : List Char) : Option (List Char × List Char × List Char) :=
  if ['<', 'i', 'm', 'g'].isPrefixOf cs then
    let body := cs.drop 4
    let run := body.takeWhile (fun c => c ≠ '>')
    let rest := body.dropWhile (fun c => c ≠ '>')
    imgBacktrack run rest run.length
  else
    none

/-- The replacement `<img\1style="max-width: 100%; height: auto; \2"`. -/
def imgRepl (g1 g2 : List Char) : List Char :=
  ['<', 'i', 'm', 'g'] ++ g1 ++ "style=\"max-width: 100%; height: auto; ".data ++
    g2 ++ ['"']

/-- Python `re.sub` of the image pattern: leftmost, non-overlapping, global.
A successful match consumes at least 12 characters, so the fuel (initially
the list's length) never runs out. -/
def imgSubFuel : Nat → List Char → List Char
  | _, [] => []
  | 0, cs => cs
  | fuel + 1, c :: cs =>
    match imgMatch (c :: cs) with
    | some (g1, g2, rest) => imgRepl g1 g2 ++ imgSubFuel fuel rest
    | none => c :: imgSubFuel fuel cs

/-- The `zoom_controls` snippet of `modify_html_for_better_display`,
verbatim (a Python triple-quoted string, leading and trailing whitespace
included). -/
def zoomControls : String :=
  "\n    <div style=\"position: fixed; bottom: 20px; right: 20px; background: #fff; padding: 10px; border-radius: 5px; box-shadow: 0 0 10px rgba(0,0,0,0.2); z-index: 1000;\">\n        <button onclick=\"document.body.style.zoom = parseFloat(document.body.style.zoom || 1) + 0.1;\" style=\"margin-right: 5px;\">放大</button>\n        <button onclick=\"document.body.style.zoom = parseFloat(document.body.style.zoom || 1) - 0.1;\">缩小</button>\n    </div>\n    "

/-- `modify_html_for_better_display`: the fixed sequence of substitutions
of the source, in order — container width, style-block font rules, row and
column flex styling, page spacing, the image regex substitution, and the
zoom-control injection before `</body>`.  Empty input is returned as-is
(the Python falsy guard). -/
def modify_html_for_better_display (html : String) : String :=
  if html = "" then html
  else
    let s1 := replaceAll html "<div class=\"container\">"
      "<div class=\"container\" style=\"max-width: 100%; width: 100%;\">"
    let s2 := replaceAll s1 "<style>"
      "<style>\nbody \x7bfont-size: 16px;\x7d\n.text-content \x7bfont-size: 16px; line-height: 1.5;\x7d\n"
    let s3 := replaceAll s2 "<div class=\"row\">"
      "<div class=\"row\" style=\"display: flex; flex-wrap: wrap;\">"
    let s4 := replaceAll s3 "<div class=\"col-md-6\">"
      "<div class=\"col-md-6\" style=\"flex: 0 0 50%; max-width: 50%; padding: 15px;\">"
    let s5 := replaceAll s4 "<div class=\"page\">"
      "<div class=\"page\" style=\"margin-bottom: 30px; border-bottom: 1px solid #ccc; padding-bottom: 20px;\">"
    let s6 := String.mk (imgSubFuel s5.data.length s5.data)
    replaceAll s6 "</body>" (zoomControls ++ "</body>")

/-- Modelled: Python `str(e)` of an exception whose text no claim inspects
(the `json.loads` branch carries its own message in `FileContent.invalid`;
this covers the `AttributeError` of `.get` on a non-dict, the
`AttributeError` of `.items()` on a non-dict metadata value, and the
`TypeError` of `f.write` on a non-string text value). -/
def pyExcMsg (desc : String) : String := desc

/-- `process_pdf` (src/app.py lines 57–152) over an explicit environment,
returning the five-slot result and the trace of side effects performed.
Each Python early `return` of the form `(msg, "", None, None, None)` is an
`errResult`.  The broad `except Exception` of the source is reached, in the
modelled world, by a JSON parse error, by a non-dict top-level JSON value
(`.get` fails), by a non-dict `metadata` value (`.items()` fails), and by
a non-string `text` value (`f.write` fails). -/
def process_pdf (pdfFile : Option String) (env : Env) : PdfResult × List Effect :=
  match pdfFile with
  | none => (errResult "请上传PDF文件", [])
  | some pdf =>
    let workDir := "olmocr_workspace/job_" ++ toString env.timestamp
    let originalFilename := stemOf pdf
    let pdfPath := workDir ++ "/input.pdf"
    let cmd := ["python", "-m", "olmocr.pipeline", workDir, "--pdfs", pdfPath]
    let effs1 := [Effect.mkdir workDir, Effect.copy pdf pdfPath, Effect.runProc cmd]
    if env.run.exitZero = false then
      (errResult ("命令执行失败: " ++ env.run.stderr), effs1)
    else
      let logText := env.run.stdout
      if env.resultsDirExists = false then
        (errResult ("处理完成，但未生成结果目录\n\n日志输出:\n" ++ logText), effs1)
      else
        match env.outputFiles with
        | [] => (errResult ("处理完成，但未找到输出文件\n\n日志输出:\n" ++ logText), effs1)
        | outFile :: _ =>
          let outPath := workDir ++ "/results/" ++ outFile
          match env.outputContent with
          | .blank => (errResult ("输出文件为空\n\n日志输出:\n" ++ logText), effs1)
          | .invalid msg => (errResult ("处理过程中发生错误: " ++ msg), effs1)
          | .jval j =>
            match j with
            | .obj fields =>
              let extractedText := (jget fields "text").getD (.str "未找到文本内容")
              let previewCmd := ["python", "-m", "olmocr.viewer.dolmaviewer", outPath]
              let effs2 := effs1 ++ [Effect.runProc previewCmd]
              let logText2 :=
                if env.previewOk then logText
                else logText ++ "\n生成HTML预览失败: " ++ env.previewErrMsg
              let htmlContent :=
                match env.htmlFiles, env.htmlRead with
                | [], _ => ""
                | _ :: _, .ok c => modify_html_for_better_display c
                | _ :: _, .err _ => ""
              let logText3 :=
                match env.htmlFiles, env.htmlRead with
                | [], _ => logText2
                | _ :: _, .ok _ => logText2
                | _ :: _, .err m => logText2 ++ "\n读取HTML预览失败: " ++ m
              match (jget fields "metadata").getD (.obj []) with
              | .obj metaFields =>
                match extractedText with
                | .str t =>
                  let downloadFile := workDir ++ "/" ++ originalFilename ++ "_extracted_text.txt"
                  ({ log := logText3, text := t, html := some htmlContent,
                     meta := some metaFields, download := some downloadFile },
                   effs2 ++ [Effect.writeFile downloadFile t])
                | _ =>
                  (errResult ("处理过程中发生错误: " ++
                    pyExcMsg "write() argument must be str"), effs2)
              | _ =>
                (errResult ("处理过程中发生错误: " ++
                  pyExcMsg "metadata value has no attribute items"), effs2)
            | _ =>
              (errResult ("处理过程中发生错误: " ++
                pyExcMsg "JSON value has no attribute get"), effs1)

/-- One zip archive entry: its name and its (text) content. -/
structure ZipEntry where
  name : String
  content : String

/-- Overall result of `process_multiple_pdfs`: the status message, the
returned archive path, the archive's entries in write order, and the side
effects performed. -/
structure BatchResult where
  message : String
  zipPath : Option String
  entries : List ZipEntry
  effects : List Effect

/-- The per-item loop body of `process_multiple_pdfs` (lines 168–179):
run `process_pdf` on each input and write its extracted text into the zip
under `<stem>_extracted_text.txt`.  Returns (entries, effects). -/
def batchSteps : List (String × Env) → List ZipEntry × List Effect
  | [] => ([], [])
  | (pdf, env) :: rest =>
    let r := process_pdf (some pdf) env
    let name := stemOf pdf ++ "_extracted_text.txt"
    let tailSteps := batchSteps rest
    (⟨name, r.1.text⟩ :: tailSteps.1,
     r.2 ++ [Effect.zipWrite name r.1.text] ++ tailSteps.2)

/-- `process_multiple_pdfs` (src/app.py lines 154–181): empty input returns
the upload prompt and no archive; otherwise create the batch directory and
the zip, process every input sequentially, and return the completion
message and the archive path.  Each input file carries its own environment
(its own `process_pdf` call's view of the external world). -/
def process_multiple_pdfs (pdfFiles : List (String × Env)) (batchTimestamp : Nat) :
    BatchResult :=
  match pdfFiles with
  | [] => { message := "请上传PDF文件", zipPath := none, entries := [], effects := [] }
  | _ :: _ =>
    let batchDir := "olmocr_workspace/batch_" ++ toString batchTimestamp
    let zipPath := batchDir ++ "/extracted_texts.zip"
    let steps := batchSteps pdfFiles
    { message := "所有文件处理完成！", zipPath := some zipPath,
      entries := steps.1,
      effects := [Effect.mkdir batchDir, Effect.createZip zipPath] ++ steps.2 }

/-- The zip entry the batch loop writes for one input. -/
def entryOf (pe : String × Env) : ZipEntry :=
  { name := stemOf pe.1 ++ "_extracted_text.txt",
    content := (process_pdf (some pe.1) pe.2).1.text }

/-- Environment where the extraction subprocess exits non-zero. -/
def envToolFail : Env :=
  { timestamp := 100, run := { exitZero := false, stdout := "", stderr := "boom: GPU missing" },
    resultsDirExists := false, outputFiles := [], outputContent := .blank,
    previewOk := true, previewErrMsg := "", htmlFiles := [], htmlRead := .ok "" }

/-- Environment where the tool succeeds but `results/` never appears. -/
def envNoResultsDir : Env :=
  { timestamp := 101, run := { exitZero := true, stdout := "pipeline log", stderr := "" },
    resultsDirExists := false, outputFiles := [], outputContent := .blank,
    previewOk := true, previewErrMsg := "", htmlFiles := [], htmlRead := .ok "" }

/-- Environment where the first output file is blank after stripping. -/
def envBlankOutput : Env :=
  { timestamp := 102, run := { exitZero := true, stdout := "pipeline log", stderr := "" },
    resultsDirExists := true, outputFiles := ["output_input.jsonl"], outputContent := .blank,
    previewOk := true, previewErrMsg := "", htmlFiles := [], htmlRead := .ok "" }

/-- Environment of a fully successful single job whose output record is
`{"text": "hello", "metadata": {"pages": 1}}`. -/
def envHello : Env :=
  { timestamp := 103, run := { exitZero := true, stdout := "pipeline log", stderr := "" },
    resultsDirExists := true, outputFiles := ["output_input.jsonl"],
    outputContent := .jval (.obj [("text", .str "hello"), ("metadata", .obj [("pages", .num 1)])]),
    previewOk := true, previewErrMsg := "", htmlFiles := [], htmlRead := .ok "" }

/-- Environment of a successful single job whose output record has neither
a `text` nor a `metadata` key. -/
def envBareRecord : Env :=
  { timestamp := 104, run := { exitZero := true, stdout := "pipeline log", stderr := "" },
    resultsDirExists := true, outputFiles := ["output_input.jsonl"],
    outputContent := .jval (.obj [("primary_language", .str "en")]),
    previewOk := true, previewErrMsg := "", htmlFiles := [], htmlRead := .ok "" }

/-- A two-item batch: the first item's extraction tool fails (its
extracted text is the empty string), the second succeeds with "hello". -/
def filesW : List (String × Env) := [("a.pdf", envToolFail), ("dir/b.v1.pdf", envHello)]

end OlmApp

namespace OlmApp

theorem data_append (a b : String) : (a ++ b).data = a.data ++ b.data := rfl

/-- C10: calling `process_pdf` with `None` returns the upload-prompt
message with empty text and absent html / metadata / download slots, and
performs no side effect at all — no directory creation, no copy, no
subprocess, no write. -/
theorem process_pdf_none_no_effects (env : Env) :
    process_pdf none env =
      ({ log := "请上传PDF文件", text := "", html := none, meta := none, download := none },
       []) := rfl

/-- C7: `process_multiple_pdfs` on the empty input collection returns the
upload-prompt message and no archive path, writes no archive entries, and
performs no side effect (no batch directory, no zip creation). -/
theorem process_multiple_pdfs_empty (ts : Nat) :
    process_multiple_pdfs [] ts =
      { message := "请上传PDF文件", zipPath := none, entries := [], effects := [] } := rfl

/-- C9: `modify_html_for_better_display` is deterministic — two
independent applications to equal inputs produce equal outputs; the result
depends only on the argument. -/
theorem modify_html_deterministic (s₁ s₂ : String) (h : s₁ = s₂) :
    modify_html_for_better_display s₁ = modify_html_for_better_display s₂ := by
  rw [h]

theorem modify_html_deterministic_witness :
    ("<body>x</body>" : String) = "<body>x</body>" ∧
      modify_html_for_better_display "<body>x</body>" =
        modify_html_for_better_display "<body>x</body>" :=
  ⟨rfl, modify_html_deterministic "<body>x</body>" "<body>x</body>" rfl⟩

/-- C3: when the extraction subprocess exits non-zero, `process_pdf`
returns a log message containing the captured stderr, and the text slot is
empty while the html, metadata, and download slots are all absent. -/
theorem process_pdf_tool_failure (pdf : String) (env : Env)
    (h : env.run.exitZero = false) :
    env.run.stderr.data <:+: ((process_pdf (some pdf) env).1.log).data ∧
    (process_pdf (some pdf) env).1.text = "" ∧
    (process_pdf (some pdf) env).1.html = none ∧
    (process_pdf (some pdf) env).1.meta = none ∧
    (process_pdf (some pdf) env).1.download = none := by
  simp [process_pdf, h, errResult]
  exact ⟨"命令执行失败: ".data, [], by simp [data_append]⟩

theorem process_pdf_tool_failure_witness :
    envToolFail.run.exitZero = false ∧
    ("boom: GPU missing".data <:+: ((process_pdf (some "doc.pdf") envToolFail).1.log).data ∧
     (process_pdf (some "doc.pdf") envToolFail).1.text = "" ∧
     (process_pdf (some "doc.pdf") envToolFail).1.html = none ∧
     (process_pdf (some "doc.pdf") envToolFail).1.meta = none ∧
     (process_pdf (some "doc.pdf") envToolFail).1.download = none) :=
  ⟨rfl, process_pdf_tool_failure "doc.pdf" envToolFail rfl⟩

/-- C4: when the subprocess succeeds but no `results` directory exists,
the log message of `process_pdf` contains "未生成结果目录" and the four
remaining slots are the empty string or `none`. -/
theorem process_pdf_no_results_dir (pdf : String) (env : Env)
    (h1 : env.run.exitZero = true) (h2 : env.resultsDirExists = false) :
    "未生成结果目录".data <:+: ((process_pdf (some pdf) env).1.log).data ∧
    (process_pdf (some pdf) env).1.text = "" ∧
    (process_pdf (some pdf) env).1.html = none ∧
    (process_pdf (some pdf) env).1.meta = none ∧
    (process_pdf (some pdf) env).1.download = none := by
  simp [process_pdf, h1, h2, errResult]
  exact ⟨"处理完成，但".data, "\n\n日志输出:\n".data ++ env.run.stdout.data,
    by simp [data_append]⟩

theorem process_pdf_no_results_dir_witness :
    envNoResultsDir.run.exitZero = true ∧ envNoResultsDir.resultsDirExists = false ∧
    ("未生成结果目录".data <:+: ((process_pdf (some "doc.pdf") envNoResultsDir).1.log).data ∧
     (process_pdf (some "doc.pdf") envNoResultsDir).1.text = "" ∧
     (process_pdf (some "doc.pdf") envNoResultsDir).1.html = none ∧
     (process_pdf (some "doc.pdf") envNoResultsDir).1.meta = none ∧
     (process_pdf (some "doc.pdf") envNoResultsDir).1.download = none) :=
  ⟨rfl, rfl, process_pdf_no_results_dir "doc.pdf" envNoResultsDir rfl rfl⟩

/-- C5: when the first matching output file exists but its content is
blank after stripping, the log message of `process_pdf` contains
"输出文件为空" (the empty-output indication) and the four remaining slots
are the empty string or `none`. -/
theorem process_pdf_blank_output (pdf : String) (env : Env)
    (h1 : env.run.exitZero = true) (h2 : env.resultsDirExists = true)
    (f : String) (fs : List String) (h3 : env.outputFiles = f :: fs)
    (h4 : env.outputContent = .blank) :
    "输出文件为空".data <:+: ((process_pdf (some pdf) env).1.log).data ∧
    (process_pdf (some pdf) env).1.text = "" ∧
    (process_pdf (some pdf) env).1.html = none ∧
    (process_pdf (some pdf) env).1.meta = none ∧
    (process_pdf (some pdf) env).1.download = none := by
  simp [process_pdf, h1, h2, h3, h4, errResult]
  exact ⟨[], "\n\n日志输出:\n".data ++ env.run.stdout.data, by simp [data_append]⟩

theorem process_pdf_blank_output_witness :
    envBlankOutput.run.exitZero = true ∧ envBlankOutput.resultsDirExists = true ∧
    envBlankOutput.outputFiles = ["output_input.jsonl"] ∧
    envBlankOutput.outputContent = .blank ∧
    ("输出文件为空".data <:+: ((process_pdf (some "doc.pdf") envBlankOutput).1.log).data ∧
     (process_pdf (some "doc.pdf") envBlankOutput).1.text = "" ∧
     (process_pdf (some "doc.pdf") envBlankOutput).1.html = none ∧
     (process_pdf (some "doc.pdf") envBlankOutput).1.meta = none ∧
     (process_pdf (some "doc.pdf") envBlankOutput).1.download = none) :=
  ⟨rfl, rfl, rfl, rfl,
   process_pdf_blank_output "doc.pdf" envBlankOutput rfl rfl "output_input.jsonl" [] rfl rfl⟩

/-- C1: a single job whose extraction subprocess exits zero and whose
first output file holds the JSON object
`{"text": "hello", "metadata": {"pages": 1}}` yields extracted text
`"hello"` and a metadata table with exactly the one row `["pages", 1]`. -/
theorem process_pdf_hello_success (pdf : String) (env : Env)
    (h1 : env.run.exitZero = true) (h2 : env.resultsDirExists = true)
    (f : String) (fs : List String) (h3 : env.outputFiles = f :: fs)
    (h4 : env.outputContent =
      .jval (.obj [("text", .str "hello"), ("metadata", .obj [("pages", .num 1)])])) :
    (process_pdf (some pdf) env).1.text = "hello" ∧
    (process_pdf (some pdf) env).1.meta = some [("pages", JVal.num 1)] := by
  simp +decide [process_pdf, h1, h2, h3, h4, jget]

theorem process_pdf_hello_success_witness :
    envHello.run.exitZero = true ∧ envHello.resultsDirExists = true ∧
    envHello.outputFiles = ["output_input.jsonl"] ∧
    envHello.outputContent =
      .jval (.obj [("text", .str "hello"), ("metadata", .obj [("pages", .num 1)])]) ∧
    ((process_pdf (some "doc.pdf") envHello).1.text = "hello" ∧
     (process_pdf (some "doc.pdf") envHello).1.meta = some [("pages", JVal.num 1)]) :=
  ⟨rfl, rfl, rfl, rfl,
   process_pdf_hello_success "doc.pdf" envHello rfl rfl "output_input.jsonl" [] rfl rfl⟩

/-- C6: on the success path, when the parsed JSON object has no `text`
key, the returned extracted text is the fixed placeholder "未找到文本内容",
and when it has no `metadata` key, the returned metadata table has zero
rows.  The side conditions `hmetaOk` / `htextOk` state that the *other*
field, if present, has the type the code needs to reach its normal return
(a dict for `metadata.items()`, a string for `f.write`): otherwise the
call ends in the generic error return, whose metadata slot is `none`
rather than an empty table. -/
theorem process_pdf_missing_field_defaults (pdf : String) (env : Env)
    (fields : List (String × JVal))
    (h1 : env.run.exitZero = true) (h2 : env.resultsDirExists = true)
    (f : String) (fs : List String) (h3 : env.outputFiles = f :: fs)
    (h4 : env.outputContent = .jval (.obj fields))
    (hmetaOk : jget fields "metadata" = none ∨
      ∃ mf, jget fields "metadata" = some (.obj mf))
    (htextOk : jget fields "text" = none ∨
      ∃ s, jget fields "text" = some (.str s)) :
    (jget fields "text" = none →
      (process_pdf (some pdf) env).1.text = "未找到文本内容") ∧
    (jget fields "metadata" = none →
      (process_pdf (some pdf) env).1.meta = some []) := by
  constructor
  · intro ht
    rcases hmetaOk with hm | ⟨mf, hm⟩ <;>
      simp +decide [process_pdf, h1, h2, h3, h4, ht, hm]
  · intro hm
    rcases htextOk with ht | ⟨s, ht⟩ <;>
      simp +decide [process_pdf, h1, h2, h3, h4, ht, hm]

theorem process_pdf_missing_field_defaults_witness :
    jget [("primary_language", JVal.str "en")] "text" = none ∧
    jget [("primary_language", JVal.str "en")] "metadata" = none ∧
    (process_pdf (some "doc.pdf") envBareRecord).1.text = "未找到文本内容" ∧
    (process_pdf (some "doc.pdf") envBareRecord).1.meta = some [] :=
  ⟨rfl, rfl,
   (process_pdf_missing_field_defaults "doc.pdf" envBareRecord
     [("primary_language", JVal.str "en")] rfl rfl "output_input.jsonl" [] rfl rfl
     (Or.inl rfl) (Or.inl rfl)).1 rfl,
   (process_pdf_missing_field_defaults "doc.pdf" envBareRecord
     [("primary_language", JVal.str "en")] rfl rfl "output_input.jsonl" [] rfl rfl
     (Or.inl rfl) (Or.inl rfl)).2 rfl⟩

theorem batchSteps_fst (l : List (String × Env)) :
    (batchSteps l).1 = l.map entryOf := by
  induction l with
  | nil => rfl
  | cons pe rest ih =>
    obtain ⟨pdf, env⟩ := pe
    simp [batchSteps, entryOf, ih]

/-- C2: for every non-empty batch, `process_multiple_pdfs` produces an
archive with exactly one entry per input, the i-th named
`<stem_i>_extracted_text.txt` from the i-th input's base name without
extension, and the i-th entry's content is exactly the extracted-text
value `process_pdf` returns for that input (empty or an error value on a
per-item failure); the loop never aborts on a per-item failure. -/
theorem process_multiple_pdfs_entries (files : List (String × Env)) (ts : Nat)
    (hne : files ≠ []) :
    (process_multiple_pdfs files ts).entries.length = files.length ∧
    ∀ i (h : i < files.length),
      (process_multiple_pdfs files ts).entries[i]? =
        some { name := stemOf (files[i]).1 ++ "_extracted_text.txt",
               content := (process_pdf (some (files[i]).1) (files[i]).2).1.text } := by
  have hent : (process_multiple_pdfs files ts).entries = files.map entryOf := by
    cases files with
    | nil => exact absurd rfl hne
    | cons pe rest => simp [process_multiple_pdfs, batchSteps_fst]
  constructor
  · simp [hent]
  · intro i h
    rw [hent, List.getElem?_map, List.getElem?_eq_getElem h]
    rfl

theorem process_multiple_pdfs_entries_witness :
    filesW ≠ [] ∧
    (process_multiple_pdfs filesW 200).entries.length = 2 ∧
    (process_multiple_pdfs filesW 200).entries[0]? =
      some { name := "a_extracted_text.txt", content := "" } ∧
    (process_multiple_pdfs filesW 200).entries[1]? =
      some { name := "b.v1_extracted_text.txt", content := "hello" } :=
  ⟨List.cons_ne_nil _ _,
   (process_multiple_pdfs_entries filesW 200 (List.cons_ne_nil _ _)).1,
   (process_multiple_pdfs_entries filesW 200 (List.cons_ne_nil _ _)).2 0 (by decide),
   (process_multiple_pdfs_entries filesW 200 (List.cons_ne_nil _ _)).2 1 (by decide)⟩

set_option maxRecDepth 100000 in
/-- C8: `modify_html_for_better_display` is not idempotent: on the input
`"</body>"` the second application injects the zoom-control snippet a
second time, so applying it twice differs from applying it once. -/
theorem modify_html_not_idempotent :
    modify_html_for_better_display (modify_html_for_better_display "</body>") ≠
      modify_html_for_better_display "</body>" := by
  decide

end OlmApp
